import Mathlib

/-!
Verification of the partition-translate-merge pipeline implemented in
src/1._multithreaded_translation.py, against its design document.

The script is embedded shallowly:
  - a dataframe is a list of rows; each row has a text column (which the
    csv loader may have filled with a non-string value such as a float NaN)
    and the remaining columns, carried opaquely;
  - the external translation provider is a parameter: a pure function from
    the text value and target language to either a translation or a
    provider-side failure;
  - fallible Python code is modelled with Except over the uncaught
    exceptions the script can actually raise;
  - filesystem writes done by the coordinator are collected in an explicit
    effect trace; the per-segment progress log messages are returned by the
    segment translator as the list of cumulative counts it reported.
-/

/-- A Python value stored in the text column: a string, or a non-string
value such as a float NaN produced by pd.read_csv for a missing cell. -/
inductive PyText where
  | str (s : String)
  | nanFloat
deriving DecidableEq, Repr

/-- A dataframe row: the text column plus the remaining columns, carried
opaquely as name-value pairs and never inspected by the pipeline. -/
structure Rec where
  text : PyText
  fields : List (String × String)
deriving DecidableEq, Repr

/-- A translated row: the original row with the text_translated column
appended (line 37 of the source). -/
structure TRec where
  row : Rec
  text_translated : String
deriving DecidableEq, Repr

/-- The uncaught Python exceptions the embedded part of the script can
raise: len(df) // 0, df_chunks[-1] on an empty list, and text[:30] on a
non-subscriptable value. -/
inductive PyError where
  | zeroDivisionError
  | indexError
  | typeError
deriving DecidableEq, Repr

/-- The external translation provider (GoogleTranslator.translate),
modelled as a deterministic function: Except.error is any provider-side
failure (the TranslationError of the design document). -/
abbrev Provider := PyText → String → Except Unit String

/-- Embedding of translate_text (source lines 18-24): call the provider;
on any exception, log the failure and return the sentinel.  The logging
f-string slices text[:30], which itself raises TypeError when the text
value is not subscriptable (e.g. a float NaN), so in that case the
exception escapes instead of the sentinel being returned. -/
def translate_text (provider : Provider) (text : PyText)
    (target_language : String) : Except PyError String :=
  match provider text target_language with
  | Except.ok s => Except.ok s
  | Except.error _ =>
    match text with
    | PyText.str _ => Except.ok "no translation"
    | PyText.nanFloat => Except.error PyError.typeError

/-- Map a fallible function over a list, stopping at the first error:
the effect of running the per-row loop, and also of collecting the
per-segment results with res.get() in index order (line 67). -/
def exceptMap {α β : Type} (f : α → Except PyError β) :
    List α → Except PyError (List β)
  | [] => Except.ok []
  | x :: xs =>
    match f x with
    | Except.error e => Except.error e
    | Except.ok b =>
      match exceptMap f xs with
      | Except.error e => Except.error e
      | Except.ok bs => Except.ok (b :: bs)

/-- The loop body of translate_dataframe_segment (source lines 31-35):
translate each row in order, counting rows, and after every 5th row
(checkpoint_interval is the literal 5 on line 29) emit the cumulative
count as a progress report.  Returns the translated rows paired with the
list of reported counts; a row whose translation raises aborts the loop
and the exception escapes. -/
def translateSegmentAux (provider : Provider) (target_language : String) :
    List Rec → Nat → Except PyError (List TRec × List Nat)
  | [], _ => Except.ok ([], [])
  | r :: rs, counter =>
    match translate_text provider r.text target_language with
    | Except.error e => Except.error e
    | Except.ok t =>
      match translateSegmentAux provider target_language rs (counter + 1) with
      | Except.error e => Except.error e
      | Except.ok (ts, evs) =>
        Except.ok (⟨r, t⟩ :: ts,
          (if (counter + 1) % 5 = 0 then [counter + 1] else []) ++ evs)

/-- Embedding of translate_dataframe_segment (source lines 26-39): the
rows of the segment with text_translated appended, in the same order,
plus the progress counts it logged.  The interim csv save on line 38 is
commented out in the source, so the function has no filesystem effect. -/
def translate_dataframe_segment (provider : Provider)
    (target_language : String) (df_segment : List Rec) :
    Except PyError (List TRec × List Nat) :=
  translateSegmentAux provider target_language df_segment 0

/-- Embedding of the chunking on source lines 48-52 for num_threads >= 1:
chunk_size = len(df) // num_threads; df_chunks[i] = df.iloc[i*cs:(i+1)*cs]
for i in range(num_threads); then the last chunk is replaced by itself
concatenated with df.iloc[num_threads*cs:]. -/
def makeChunks {α : Type} (df : List α) (num_threads : Nat) :
    List (List α) :=
  let chunk_size := df.length / num_threads
  let df_chunks := (List.range num_threads).map
    (fun i => (df.drop (i * chunk_size)).take chunk_size)
  df_chunks.dropLast ++
    [df_chunks.getLastD [] ++ df.drop (num_threads * chunk_size)]

/-- A filesystem effect performed by translate_dataframe. -/
inductive Effect where
  | makedirs (path : String)
  | writeCsv (path : String) (rows : List TRec)
deriving DecidableEq, Repr

/-- Embedding of translate_dataframe (source lines 41-74).  num_threads
is the int from argparse: with 0 the expression len(df) // num_threads
raises ZeroDivisionError; with a negative value range(num_threads) is
empty, df_chunks is [], and df_chunks[-1] raises IndexError.  Otherwise
the dataframe is chunked, every chunk is translated (the thread pool
affects timing only; res.get() collects results in index order, line 67,
re-raising the first workers exception if any), the chunks are
concatenated in index order, and the merged dataframe is written to
parent_dir/df_translated.csv (line 71) and returned.  The directory
creations of lines 44-45 and 57-58 and the csv write are the effect
trace, in program order. -/
def translate_dataframe (provider : Provider) (df : List Rec)
    (num_threads : Int) (parent_dir : String)
    (target_language : String) :
    Except PyError (List TRec × List Effect) :=
  if num_threads = 0 then Except.error PyError.zeroDivisionError
  else if num_threads < 0 then Except.error PyError.indexError
  else
    let n := num_threads.toNat
    let df_chunks := makeChunks df n
    let dirEffects :=
      Effect.makedirs (parent_dir ++ "/dfs_translated") ::
        (List.range n).map (fun i =>
          Effect.makedirs
            (parent_dir ++ "/dfs_translated/sub_dfs_translated_" ++
              toString (i + 1)))
    match exceptMap
        (fun c =>
          (translate_dataframe_segment provider target_language c).map
            Prod.fst)
        df_chunks with
    | Except.error e => Except.error e
    | Except.ok segs =>
      let translated_df := segs.flatten
      Except.ok (translated_df,
        dirEffects ++
          [Effect.writeCsv (parent_dir ++ "/df_translated.csv")
            translated_df])

/-- One row of the segment loop, with the original row kept next to its
translation; used to state that the translations are independent of the
progress counter and of the chunking. -/
def translateRow (provider : Provider) (target_language : String)
    (r : Rec) : Except PyError TRec :=
  match translate_text provider r.text target_language with
  | Except.error e => Except.error e
  | Except.ok t => Except.ok ⟨r, t⟩

/-- The provider result of a row when its text is a string: the
translation on success, the sentinel on failure. -/
def providedOrSentinel (provider : Provider) (target_language : String)
    (r : Rec) : String :=
  match provider r.text target_language with
  | Except.ok t => t
  | Except.error _ => "no translation"

lemma translate_text_str (provider : Provider) (target_language : String)
    (r : Rec) (s : String) (hs : r.text = PyText.str s) :
    translate_text provider r.text target_language =
      Except.ok (providedOrSentinel provider target_language r) := by
  rw [hs]
  unfold translate_text providedOrSentinel
  rw [hs]
  cases provider (PyText.str s) target_language <;> rfl

lemma translateRow_str (provider : Provider) (target_language : String)
    (r : Rec) (s : String) (hs : r.text = PyText.str s) :
    translateRow provider target_language r =
      Except.ok ⟨r, providedOrSentinel provider target_language r⟩ := by
  unfold translateRow
  rw [translate_text_str provider target_language r s hs]

lemma exceptMap_append_error {α β : Type} (f : α → Except PyError β)
    {xs : List α} {e : PyError} (ys : List α)
    (h : exceptMap f xs = Except.error e) :
    exceptMap f (xs ++ ys) = Except.error e := by
  induction xs with
  | nil => simp [exceptMap] at h
  | cons x xs ih =>
    simp only [List.cons_append, exceptMap] at h ⊢
    cases hfx : f x with
    | error e2 => simp only [hfx] at h ⊢; exact h
    | ok b =>
      simp only [hfx] at h ⊢
      cases hxs : exceptMap f xs with
      | error e2 =>
        simp only [hxs] at h
        injection h with h2
        subst h2
        simp [ih hxs]
      | ok bs => simp [hxs] at h

lemma exceptMap_append_ok {α β : Type} (f : α → Except PyError β)
    {xs : List α} {bs : List β} (ys : List α)
    (h : exceptMap f xs = Except.ok bs) :
    exceptMap f (xs ++ ys) =
      (exceptMap f ys).map (fun cs => bs ++ cs) := by
  induction xs generalizing bs with
  | nil =>
    simp only [exceptMap, Except.ok.injEq] at h
    subst h
    simp only [List.nil_append]
    cases exceptMap f ys <;> rfl
  | cons x xs ih =>
    simp only [List.cons_append, exceptMap] at h ⊢
    cases hfx : f x with
    | error e2 => simp [hfx] at h
    | ok b =>
      simp only [hfx] at h ⊢
      cases hxs : exceptMap f xs with
      | error e2 => simp [hxs] at h
      | ok bs2 =>
        simp only [hxs, Except.ok.injEq] at h
        subst h
        simp only [List.append_eq, ih hxs]
        cases exceptMap f ys <;> rfl

lemma exceptMap_congr {α β : Type} {f g : α → Except PyError β}
    {xs : List α} (h : ∀ x ∈ xs, f x = g x) :
    exceptMap f xs = exceptMap g xs := by
  induction xs with
  | nil => rfl
  | cons x xs ih =>
    simp only [exceptMap]
    rw [h x (List.mem_cons_self x xs),
      ih (fun y hy => h y (List.mem_cons_of_mem x hy))]

lemma exceptMap_ok_length {α β : Type} {f : α → Except PyError β}
    {xs : List α} {bs : List β} (h : exceptMap f xs = Except.ok bs) :
    bs.length = xs.length := by
  induction xs generalizing bs with
  | nil => simp only [exceptMap, Except.ok.injEq] at h; subst h; rfl
  | cons x xs ih =>
    simp only [exceptMap] at h
    cases hfx : f x with
    | error e => simp [hfx] at h
    | ok b =>
      simp only [hfx] at h
      cases hxs : exceptMap f xs with
      | error e => simp [hxs] at h
      | ok bs2 =>
        simp only [hxs, Except.ok.injEq] at h
        subst h
        simp [ih hxs]

lemma exceptMap_flatten {α β : Type} (f : α → Except PyError β)
    (css : List (List α)) :
    (exceptMap (fun c => exceptMap f c) css).map List.flatten =
      exceptMap f css.flatten := by
  induction css with
  | nil => rfl
  | cons c cs ih =>
    simp only [exceptMap, List.flatten_cons]
    cases hc : exceptMap f c with
    | error e => rw [exceptMap_append_error f cs.flatten hc]; rfl
    | ok bs =>
      rw [exceptMap_append_ok f cs.flatten hc]
      cases hcs : exceptMap (fun c => exceptMap f c) cs with
      | error e =>
        rw [hcs] at ih
        cases hflat : exceptMap f cs.flatten with
        | error e2 =>
          rw [hflat] at ih
          simp only [Except.map] at ih ⊢
          simp [ih]
        | ok bs2 => rw [hflat] at ih; simp [Except.map] at ih
      | ok bss =>
        rw [hcs] at ih
        cases hflat : exceptMap f cs.flatten with
        | error e2 => rw [hflat] at ih; simp [Except.map] at ih
        | ok bs2 =>
          rw [hflat] at ih
          simp only [Except.map, Except.ok.injEq] at ih ⊢
          simp [ih]

lemma translateSegmentAux_fst (provider : Provider)
    (target_language : String) (seg : List Rec) :
    ∀ counter : Nat,
      (translateSegmentAux provider target_language seg counter).map
          Prod.fst =
        exceptMap (translateRow provider target_language) seg := by
  induction seg with
  | nil => intro counter; rfl
  | cons r rs ih =>
    intro counter
    simp only [translateSegmentAux, exceptMap, translateRow]
    cases htx : translate_text provider r.text target_language with
    | error e => rfl
    | ok t =>
      have h2 := ih (counter + 1)
      cases haux : translateSegmentAux provider target_language rs
          (counter + 1) with
      | error e =>
        rw [haux] at h2
        simp only [Except.map] at h2 ⊢
        rw [← h2]
      | ok p =>
        rw [haux] at h2
        obtain ⟨ts, evs⟩ := p
        simp only [Except.map] at h2 ⊢
        rw [← h2]

lemma exceptMap_translateRow_row (provider : Provider)
    (target_language : String) {seg : List Rec} {out : List TRec}
    (h : exceptMap (translateRow provider target_language) seg =
      Except.ok out) :
    out.map TRec.row = seg := by
  induction seg generalizing out with
  | nil => simp only [exceptMap, Except.ok.injEq] at h; subst h; rfl
  | cons r rs ih =>
    simp only [exceptMap, translateRow] at h
    cases htx : translate_text provider r.text target_language with
    | error e => simp [htx] at h
    | ok t =>
      simp only [htx] at h
      cases hrs : exceptMap (translateRow provider target_language) rs with
      | error e => simp [hrs] at h
      | ok ts =>
        simp only [hrs, Except.ok.injEq] at h
        subst h
        simp [ih hrs]

lemma translateSegmentAux_events (provider : Provider)
    (target_language : String) (seg : List Rec) :
    ∀ (counter : Nat) (out : List TRec) (evs : List Nat),
      translateSegmentAux provider target_language seg counter =
          Except.ok (out, evs) →
        evs = ((List.range seg.length).map
            (fun j => counter + j + 1)).filter (fun m => m % 5 = 0) := by
  induction seg with
  | nil =>
    intro counter out evs h
    simp only [translateSegmentAux, Except.ok.injEq, Prod.mk.injEq] at h
    simp [← h.2]
  | cons r rs ih =>
    intro counter out evs h
    simp only [translateSegmentAux] at h
    cases htx : translate_text provider r.text target_language with
    | error e => simp [htx] at h
    | ok t =>
      simp only [htx] at h
      cases haux : translateSegmentAux provider target_language rs
          (counter + 1) with
      | error e => simp [haux] at h
      | ok p =>
        obtain ⟨ts, evs2⟩ := p
        simp only [haux, Except.ok.injEq, Prod.mk.injEq] at h
        have hevs := ih (counter + 1) ts evs2 haux
        rw [← h.2, hevs]
        simp only [List.length_cons, List.range_succ_eq_map,
          List.map_cons, List.map_map, List.filter_cons]
        have hfun : ((fun j => counter + j + 1) ∘ Nat.succ) =
            (fun j => counter + 1 + j + 1) := by
          funext j
          simp only [Function.comp]
          omega
        rw [hfun]
        by_cases h5 : (counter + 1) % 5 = 0
        · simp [h5]
        · simp [h5]

lemma range_map_split {α : Type} (f : Nat → α) {n : Nat} (hn : 1 ≤ n) :
    (List.range n).map f = (List.range (n - 1)).map f ++ [f (n - 1)] := by
  conv_lhs => rw [show n = (n - 1) + 1 by omega]
  rw [List.range_succ, List.map_append]
  rfl

lemma tile_flatten {α : Type} (df : List α) (cs : Nat) (m : Nat) :
    ((List.range m).map
        (fun i => (df.drop (i * cs)).take cs)).flatten =
      df.take (m * cs) := by
  induction m with
  | zero => simp
  | succ m ih =>
    rw [List.range_succ, List.map_append, List.flatten_append, ih]
    simp only [List.map_cons, List.map_nil, List.flatten_cons,
      List.flatten_nil, List.append_nil]
    rw [Nat.succ_mul, List.take_add]

lemma makeChunks_eq {α : Type} (df : List α) {n : Nat} (hn : 1 ≤ n) :
    makeChunks df n =
      (List.range (n - 1)).map
        (fun i => (df.drop (i * (df.length / n))).take (df.length / n)) ++
      [(df.drop ((n - 1) * (df.length / n))).take (df.length / n) ++
        df.drop (n * (df.length / n))] := by
  simp only [makeChunks]
  rw [range_map_split _ hn, List.dropLast_concat, List.getLastD_concat]

lemma chunk_size_mul {α : Type} (df : List α) {n : Nat} (hn : 1 ≤ n) :
    (n - 1) * (df.length / n) + df.length / n = n * (df.length / n) := by
  have h1 : df.length / n ≤ n * (df.length / n) :=
    Nat.le_mul_of_pos_left _ hn
  rw [Nat.sub_one_mul, Nat.sub_add_cancel h1]

lemma makeChunks_flatten {α : Type} (df : List α) {n : Nat} (hn : 1 ≤ n) :
    (makeChunks df n).flatten = df := by
  rw [makeChunks_eq df hn, List.flatten_append, tile_flatten]
  simp only [List.flatten_cons, List.flatten_nil, List.append_nil]
  rw [← List.append_assoc, ← List.take_add, chunk_size_mul df hn,
    List.take_append_drop]

lemma makeChunks_length {α : Type} (df : List α) {n : Nat} (hn : 1 ≤ n) :
    (makeChunks df n).length = n := by
  rw [makeChunks_eq df hn]
  simp only [List.length_append, List.length_map, List.length_range,
    List.length_cons, List.length_nil]
  omega

lemma makeChunks_getD_lt {α : Type} (df : List α) {n i : Nat}
    (hi : i < n - 1) :
    (makeChunks df n).getD i [] =
      (df.drop (i * (df.length / n))).take (df.length / n) := by
  have hn : 1 ≤ n := by omega
  rw [makeChunks_eq df hn, List.getD_eq_getElem?_getD,
    List.getElem?_append]
  have hlen : i < ((List.range (n - 1)).map
      (fun i => (df.drop (i * (df.length / n))).take
        (df.length / n))).length := by
    simp [hi]
  rw [if_pos hlen, List.getElem?_map, List.getElem?_range hi]
  rfl

lemma makeChunks_getD_lt_length {α : Type} (df : List α) {n i : Nat}
    (hi : i < n - 1) :
    ((makeChunks df n).getD i []).length = df.length / n := by
  rw [makeChunks_getD_lt df hi, List.length_take, List.length_drop]
  have h1 : df.length / n * n ≤ df.length := Nat.div_mul_le_self _ _
  have hin : i + 1 ≤ n := by omega
  have h2 : (i + 1) * (df.length / n) ≤ n * (df.length / n) :=
    Nat.mul_le_mul_right _ hin
  have h3 : i * (df.length / n) + df.length / n ≤ df.length := by
    calc i * (df.length / n) + df.length / n
        = (i + 1) * (df.length / n) := by ring
      _ ≤ n * (df.length / n) := h2
      _ = df.length / n * n := Nat.mul_comm _ _
      _ ≤ df.length := h1
  omega

lemma makeChunks_getD_last {α : Type} (df : List α) {n : Nat}
    (hn : 1 ≤ n) :
    (makeChunks df n).getD (n - 1) [] =
      df.drop ((n - 1) * (df.length / n)) := by
  rw [makeChunks_eq df hn, List.getD_eq_getElem?_getD,
    List.getElem?_append]
  have hlen : ¬ (n - 1 < ((List.range (n - 1)).map
      (fun i => (df.drop (i * (df.length / n))).take
        (df.length / n))).length) := by
    simp
  rw [if_neg hlen]
  simp only [List.length_map, List.length_range, Nat.sub_self,
    List.getElem?_cons_zero, Option.getD_some]
  rw [← chunk_size_mul df hn, ← List.drop_drop, List.take_append_drop]

lemma translate_dataframe_rows (provider : Provider) (df : List Rec)
    {num_threads : Int} (hn : 1 ≤ num_threads)
    (parent_dir target_language : String) :
    (translate_dataframe provider df num_threads parent_dir
        target_language).map Prod.fst =
      exceptMap (translateRow provider target_language) df := by
  have h0 : ¬ (num_threads = 0) := by omega
  have hneg : ¬ (num_threads < 0) := by omega
  have hn1 : 1 ≤ num_threads.toNat := by omega
  simp only [translate_dataframe, if_neg h0, if_neg hneg]
  have hcongr : exceptMap
      (fun c =>
        (translate_dataframe_segment provider target_language c).map
          Prod.fst)
      (makeChunks df num_threads.toNat) =
      exceptMap
        (fun c => exceptMap (translateRow provider target_language) c)
        (makeChunks df num_threads.toNat) :=
    exceptMap_congr (fun c _ =>
      translateSegmentAux_fst provider target_language c 0)
  rw [hcongr]
  have hflat := exceptMap_flatten (translateRow provider target_language)
    (makeChunks df num_threads.toNat)
  rw [makeChunks_flatten df hn1] at hflat
  rw [← hflat]
  cases hc : exceptMap
      (fun c => exceptMap (translateRow provider target_language) c)
      (makeChunks df num_threads.toNat) with
  | error e => rfl
  | ok segs => rfl

lemma map_fst_ok {ε α β : Type} {e : Except ε (α × β)} {a : α}
    (h : e.map Prod.fst = Except.ok a) : ∃ b, e = Except.ok (a, b) := by
  cases e with
  | error e2 => simp [Except.map] at h
  | ok p =>
    obtain ⟨x, y⟩ := p
    simp only [Except.map, Except.ok.injEq] at h
    exact ⟨y, by rw [h]⟩

lemma exceptMap_translateRow_str (provider : Provider)
    (target_language : String) (seg : List Rec)
    (hs : ∀ r ∈ seg, ∃ s, r.text = PyText.str s) :
    exceptMap (translateRow provider target_language) seg =
      Except.ok (seg.map (fun r =>
        ⟨r, providedOrSentinel provider target_language r⟩)) := by
  induction seg with
  | nil => rfl
  | cons r rs ih =>
    obtain ⟨s, hstext⟩ := hs r (List.mem_cons_self r rs)
    simp only [exceptMap, List.map_cons]
    rw [translateRow_str provider target_language r s hstext,
      ih (fun y hy => hs y (List.mem_cons_of_mem r hy))]

/-- A deterministic demo provider that translates every string and fails
on non-string input, like a real remote translator would. -/
def demoProvider : Provider := fun t _ =>
  match t with
  | PyText.str s => Except.ok ("DE:" ++ s)
  | PyText.nanFloat => Except.error ()

/-- A deterministic demo provider that additionally fails on the single
text "bad", to exercise per-row failure isolation. -/
def failingProvider : Provider := fun t _ =>
  match t with
  | PyText.str s =>
    if s = "bad" then Except.error () else Except.ok ("DE:" ++ s)
  | PyText.nanFloat => Except.error ()

/-- A demo row with a string text and one opaque extra column. -/
def demoRow (s : String) : Rec := ⟨PyText.str s, [("id", s)]⟩

/-- A three-row demo dataframe. -/
def demoDf : List Rec := [demoRow "a", demoRow "b", demoRow "c"]

/-- The translation of demoDf under demoProvider. -/
def demoRows : List TRec :=
  [⟨demoRow "a", "DE:a"⟩, ⟨demoRow "b", "DE:b"⟩, ⟨demoRow "c", "DE:c"⟩]

/-- Claim C1: for every valid run (non-empty input, num_threads >= 1)
that returns, the merged output has the same length as the input and
preserves row order: the i-th output row is derived from the i-th input
row, because the translated segments are concatenated strictly in
ascending segment-index order, never in completion order. -/
theorem claim_C1 (provider : Provider) (df : List Rec)
    (num_threads : Int) (parent_dir target_language : String)
    (rows : List TRec) (effs : List Effect)
    (hdf : df ≠ []) (hn : 1 ≤ num_threads)
    (h : translate_dataframe provider df num_threads parent_dir
      target_language = Except.ok (rows, effs)) :
    rows.length = df.length ∧
      ∀ i : Nat, Option.map TRec.row rows[i]? = df[i]? := by
  have hrow := translate_dataframe_rows provider df hn parent_dir
    target_language
  rw [h] at hrow
  simp only [Except.map] at hrow
  have hok : exceptMap (translateRow provider target_language) df =
      Except.ok rows := hrow.symm
  have hmap := exceptMap_translateRow_row provider target_language hok
  refine ⟨exceptMap_ok_length hok, ?_⟩
  intro i
  rw [← hmap, List.getElem?_map]

/-- Witness for claim C1 at a concrete input: three rows split over two
threads (chunk sizes 1 and 2). -/
theorem claim_C1_witness :
    demoDf ≠ [] ∧ (1 : Int) ≤ 2 ∧
    translate_dataframe demoProvider demoDf 2 "out" "de" =
      Except.ok (demoRows,
        [Effect.makedirs "out/dfs_translated",
         Effect.makedirs "out/dfs_translated/sub_dfs_translated_1",
         Effect.makedirs "out/dfs_translated/sub_dfs_translated_2",
         Effect.writeCsv "out/df_translated.csv" demoRows]) ∧
    (demoRows.length = demoDf.length ∧
      ∀ i : Nat, Option.map TRec.row demoRows[i]? = demoDf[i]?) :=
  ⟨by decide, by decide, rfl,
    claim_C1 demoProvider demoDf 2 "out" "de" demoRows
      [Effect.makedirs "out/dfs_translated",
       Effect.makedirs "out/dfs_translated/sub_dfs_translated_1",
       Effect.makedirs "out/dfs_translated/sub_dfs_translated_2",
       Effect.writeCsv "out/df_translated.csv" demoRows]
      (by decide) (by decide) rfl⟩

/-- Claim C2: for every non-empty record sequence and n >= 1 the
chunking yields exactly n segments; segments 0..n-2 are the consecutive
floor(len/n)-sized slices of the input, in original order; the last
segment is all remaining records; the concatenation of the segments in
index order reconstructs the input with no row duplicated or dropped;
and when len < n the surplus segments are empty and the last segment
absorbs all rows, without failing. -/
theorem claim_C2 {α : Type} (records : List α) (n : Nat)
    (hne : records ≠ []) (hn : 1 ≤ n) :
    (makeChunks records n).length = n ∧
    (∀ i, i < n - 1 →
      (makeChunks records n).getD i [] =
        (records.drop (i * (records.length / n))).take
          (records.length / n) ∧
      ((makeChunks records n).getD i []).length =
        records.length / n) ∧
    (makeChunks records n).getD (n - 1) [] =
      records.drop ((n - 1) * (records.length / n)) ∧
    (makeChunks records n).flatten = records ∧
    (records.length < n →
      (∀ i, i < n - 1 → (makeChunks records n).getD i [] = []) ∧
      (makeChunks records n).getD (n - 1) [] = records) := by
  refine ⟨makeChunks_length records hn, ?_,
    makeChunks_getD_last records hn, makeChunks_flatten records hn, ?_⟩
  · intro i hi
    exact ⟨makeChunks_getD_lt records hi,
      makeChunks_getD_lt_length records hi⟩
  · intro hlt
    have hdiv : records.length / n = 0 := Nat.div_eq_of_lt hlt
    constructor
    · intro i hi
      rw [makeChunks_getD_lt records hi, hdiv]
      simp
    · rw [makeChunks_getD_last records hn, hdiv]
      simp

/-- Witness for claim C2 at a concrete boundary input: 3 records over
n = 5 segments (more segments than rows). -/
theorem claim_C2_witness :
    ([1, 2, 3] : List Nat) ≠ [] ∧ 1 ≤ 5 ∧
    ((makeChunks ([1, 2, 3] : List Nat) 5).length = 5 ∧
    (∀ i, i < 5 - 1 →
      (makeChunks ([1, 2, 3] : List Nat) 5).getD i [] =
        (([1, 2, 3] : List Nat).drop
          (i * (([1, 2, 3] : List Nat).length / 5))).take
          (([1, 2, 3] : List Nat).length / 5) ∧
      ((makeChunks ([1, 2, 3] : List Nat) 5).getD i []).length =
        ([1, 2, 3] : List Nat).length / 5) ∧
    (makeChunks ([1, 2, 3] : List Nat) 5).getD (5 - 1) [] =
      ([1, 2, 3] : List Nat).drop
        ((5 - 1) * (([1, 2, 3] : List Nat).length / 5)) ∧
    (makeChunks ([1, 2, 3] : List Nat) 5).flatten =
      ([1, 2, 3] : List Nat) ∧
    (([1, 2, 3] : List Nat).length < 5 →
      (∀ i, i < 5 - 1 →
        (makeChunks ([1, 2, 3] : List Nat) 5).getD i [] = []) ∧
      (makeChunks ([1, 2, 3] : List Nat) 5).getD (5 - 1) [] =
        ([1, 2, 3] : List Nat))) :=
  ⟨by decide, by decide,
    claim_C2 ([1, 2, 3] : List Nat) 5 (by decide) (by decide)⟩

/-- Claim C3: for rows satisfying the Record contract (text is a
string), a failing provider call yields exactly the sentinel
"no translation" and processing continues: a segment of size k whose
rows all have string texts always yields k rows, the failing rows set
to the sentinel and every other row carrying the provider translation;
no per-row error escapes the segment translator. -/
theorem claim_C3 (provider : Provider) (target_language : String)
    (seg : List Rec) (hs : ∀ r ∈ seg, ∃ s, r.text = PyText.str s) :
    (∀ r ∈ seg, provider r.text target_language = Except.error () →
      translate_text provider r.text target_language =
        Except.ok "no translation") ∧
    ∃ out evs,
      translate_dataframe_segment provider target_language seg =
          Except.ok (out, evs) ∧
      out.length = seg.length ∧
      ∀ i : Nat, Option.map TRec.text_translated out[i]? =
        Option.map (providedOrSentinel provider target_language)
          seg[i]? := by
  constructor
  · intro r hr hfail
    obtain ⟨s, hstext⟩ := hs r hr
    rw [translate_text_str provider target_language r s hstext]
    unfold providedOrSentinel
    rw [hfail]
  · obtain ⟨evs, haux⟩ := @map_fst_ok PyError (List TRec) (List Nat)
      (translate_dataframe_segment provider target_language seg)
      (seg.map (fun r =>
        ⟨r, providedOrSentinel provider target_language r⟩)) (by
        rw [show translate_dataframe_segment provider target_language
            seg = translateSegmentAux provider target_language seg 0
            from rfl,
          translateSegmentAux_fst provider target_language seg 0,
          exceptMap_translateRow_str provider target_language seg hs])
    refine ⟨_, evs, haux, List.length_map _ _, ?_⟩
    intro i
    rw [List.getElem?_map, Option.map_map]
    rfl

/-- Witness for claim C3 at a concrete input: a three-row segment whose
middle row fails at the provider; the output keeps all three rows, the
middle one carrying the sentinel. -/
theorem claim_C3_witness :
    (∀ r ∈ [demoRow "x", demoRow "bad", demoRow "y"],
      ∃ s, r.text = PyText.str s) ∧
    ((∀ r ∈ [demoRow "x", demoRow "bad", demoRow "y"],
      failingProvider r.text "de" = Except.error () →
      translate_text failingProvider r.text "de" =
        Except.ok "no translation") ∧
    ∃ out evs,
      translate_dataframe_segment failingProvider "de"
          [demoRow "x", demoRow "bad", demoRow "y"] =
          Except.ok (out, evs) ∧
      out.length = [demoRow "x", demoRow "bad", demoRow "y"].length ∧
      ∀ i : Nat, Option.map TRec.text_translated out[i]? =
        Option.map (providedOrSentinel failingProvider "de")
          [demoRow "x", demoRow "bad", demoRow "y"][i]?) :=
  ⟨by intro r hr; fin_cases hr <;> exact ⟨_, rfl⟩,
    claim_C3 failingProvider "de" [demoRow "x", demoRow "bad", demoRow "y"]
      (by intro r hr; fin_cases hr <;> exact ⟨_, rfl⟩)⟩

/-- Claim C4 is false on the code as witnessed at concrete inputs: an
empty dataset with num_threads = 1 is processed without any error and
yields an empty output (no failure before work starts), while
num_threads = 0 and num_threads = -2 raise plain ZeroDivisionError and
IndexError rather than a configuration error. -/
theorem claim_C4_counterexample :
    translate_dataframe demoProvider [] 1 "out" "de" =
      Except.ok ([],
        [Effect.makedirs "out/dfs_translated",
         Effect.makedirs "out/dfs_translated/sub_dfs_translated_1",
         Effect.writeCsv "out/df_translated.csv" []]) ∧
    translate_dataframe demoProvider [demoRow "a"] 0 "out" "de" =
      Except.error PyError.zeroDivisionError ∧
    translate_dataframe demoProvider [demoRow "a"] (-2) "out" "de" =
      Except.error PyError.indexError :=
  ⟨rfl, rfl, rfl⟩

/-- Claim C4 amended: the run performs no configuration validation.
With num_threads = 0 it fails with an uncaught ZeroDivisionError and
with any negative num_threads with an uncaught IndexError — in both
cases before any provider call, as the outcome is the same for every
provider — while an empty dataset with num_threads >= 1 is not
rejected: the run succeeds and returns an empty output. -/
theorem claim_C4_amended (provider provider2 : Provider) (df : List Rec)
    (parent_dir target_language : String) (k : Nat) :
    translate_dataframe provider df 0 parent_dir target_language =
      Except.error PyError.zeroDivisionError ∧
    translate_dataframe provider df (-(k + 1 : Int)) parent_dir
      target_language = Except.error PyError.indexError ∧
    translate_dataframe provider df (-(k + 1 : Int)) parent_dir
        target_language =
      translate_dataframe provider2 df (-(k + 1 : Int)) parent_dir
        target_language ∧
    ∃ effs, translate_dataframe provider [] ((k : Int) + 1) parent_dir
      target_language = Except.ok ([], effs) := by
  have hneg0 : ¬ ((-(k + 1 : Int)) = 0) := by omega
  have hneg : (-(k + 1 : Int)) < 0 := by omega
  refine ⟨rfl, ?_, ?_, ?_⟩
  · unfold translate_dataframe
    rw [if_neg hneg0, if_pos hneg]
  · simp only [translate_dataframe, if_neg hneg0, if_pos hneg]
  · have hn : (1 : Int) ≤ (k : Int) + 1 := by omega
    obtain ⟨effs, heq⟩ := @map_fst_ok PyError (List TRec) (List Effect)
      (translate_dataframe provider [] ((k : Int) + 1) parent_dir
        target_language) [] (by
          rw [translate_dataframe_rows provider [] hn parent_dir
            target_language]
          rfl)
    exact ⟨effs, heq⟩

/-- The checkpoint reporting the design document prescribes for a
supplied checkpoint interval: one report after every interval-th
processed row of the segment, carrying the cumulative count. -/
def checkpointEventsSpec (interval rowCount : Nat) : List Nat :=
  ((List.range rowCount).map (fun j => j + 1)).filter
    (fun m => m % interval = 0)

/-- Claim C5 is false as stated: the checkpoint interval cannot be
supplied in the job configuration — it is the hardcoded literal 5.  At
the positive interval 2 on a two-row segment the claim requires a
report after row 2, but the segment translator reports nothing. -/
theorem claim_C5_counterexample :
    0 < 2 ∧
    checkpointEventsSpec 2 [demoRow "a", demoRow "b"].length = [2] ∧
    (translate_dataframe_segment demoProvider "de"
        [demoRow "a", demoRow "b"]).map Prod.snd =
      Except.ok ([] : List Nat) ∧
    ([] : List Nat) ≠
      checkpointEventsSpec 2 [demoRow "a", demoRow "b"].length :=
  ⟨by decide, by decide, rfl, by decide⟩

/-- Claim C5 amended: the checkpoint interval is fixed at 5 inside the
segment translator (it is not configurable); every segment run that
returns reports exactly the cumulative counts divisible by 5, one
report after every 5th processed row (sentinel rows counting the same
as successes), and the reporting has no effect on the translation
results, which are exactly the independent per-row translations. -/
theorem claim_C5_amended (provider : Provider) (target_language : String)
    (seg : List Rec) (out : List TRec) (evs : List Nat)
    (h : translate_dataframe_segment provider target_language seg =
      Except.ok (out, evs)) :
    evs = checkpointEventsSpec 5 seg.length ∧
    exceptMap (translateRow provider target_language) seg =
      Except.ok out := by
  constructor
  · have hev := translateSegmentAux_events provider target_language
      seg 0 out evs h
    rw [hev]
    have hf : (fun j : Nat => 0 + j + 1) = (fun j : Nat => j + 1) := by
      funext j
      omega
    unfold checkpointEventsSpec
    rw [hf]
  · have h0 : translateSegmentAux provider target_language seg 0 =
        Except.ok (out, evs) := h
    rw [← translateSegmentAux_fst provider target_language seg 0, h0]
    rfl

/-- Witness for claim C5 amended at a concrete input: a six-row segment
reports exactly once, after its 5th row. -/
theorem claim_C5_witness :
    translate_dataframe_segment demoProvider "de"
        [demoRow "a", demoRow "b", demoRow "c", demoRow "d",
          demoRow "e", demoRow "f"] =
      Except.ok ([⟨demoRow "a", "DE:a"⟩, ⟨demoRow "b", "DE:b"⟩,
        ⟨demoRow "c", "DE:c"⟩, ⟨demoRow "d", "DE:d"⟩,
        ⟨demoRow "e", "DE:e"⟩, ⟨demoRow "f", "DE:f"⟩], [5]) ∧
    ([5] : List Nat) = checkpointEventsSpec 5
      [demoRow "a", demoRow "b", demoRow "c", demoRow "d",
        demoRow "e", demoRow "f"].length ∧
    exceptMap (translateRow demoProvider "de")
        [demoRow "a", demoRow "b", demoRow "c", demoRow "d",
          demoRow "e", demoRow "f"] =
      Except.ok [⟨demoRow "a", "DE:a"⟩, ⟨demoRow "b", "DE:b"⟩,
        ⟨demoRow "c", "DE:c"⟩, ⟨demoRow "d", "DE:d"⟩,
        ⟨demoRow "e", "DE:e"⟩, ⟨demoRow "f", "DE:f"⟩] :=
  ⟨rfl,
    (claim_C5_amended demoProvider "de"
      [demoRow "a", demoRow "b", demoRow "c", demoRow "d",
        demoRow "e", demoRow "f"]
      [⟨demoRow "a", "DE:a"⟩, ⟨demoRow "b", "DE:b"⟩,
        ⟨demoRow "c", "DE:c"⟩, ⟨demoRow "d", "DE:d"⟩,
        ⟨demoRow "e", "DE:e"⟩, ⟨demoRow "f", "DE:f"⟩] [5] rfl).1,
    (claim_C5_amended demoProvider "de"
      [demoRow "a", demoRow "b", demoRow "c", demoRow "d",
        demoRow "e", demoRow "f"]
      [⟨demoRow "a", "DE:a"⟩, ⟨demoRow "b", "DE:b"⟩,
        ⟨demoRow "c", "DE:c"⟩, ⟨demoRow "d", "DE:d"⟩,
        ⟨demoRow "e", "DE:e"⟩, ⟨demoRow "f", "DE:f"⟩] [5] rfl).2⟩

/-- Claim C6: for every segment whose rows satisfy the Record contract
(text is a string), including the empty segment, the segment translator
succeeds and returns the segment itself with the translated text
appended: identical length, identical row order, no whole-segment
failure. -/
theorem claim_C6 (provider : Provider) (target_language : String)
    (seg : List Rec) (hs : ∀ r ∈ seg, ∃ s, r.text = PyText.str s) :
    ∃ evs,
      translate_dataframe_segment provider target_language seg =
        Except.ok (seg.map (fun r =>
          (⟨r, providedOrSentinel provider target_language r⟩ : TRec)),
          evs) ∧
      (seg.map (fun r =>
        (⟨r, providedOrSentinel provider target_language r⟩ :
          TRec))).length = seg.length ∧
      (seg.map (fun r =>
        (⟨r, providedOrSentinel provider target_language r⟩ :
          TRec))).map TRec.row = seg := by
  obtain ⟨evs, haux⟩ := @map_fst_ok PyError (List TRec) (List Nat)
    (translate_dataframe_segment provider target_language seg)
    (seg.map (fun r =>
      ⟨r, providedOrSentinel provider target_language r⟩)) (by
      rw [show translate_dataframe_segment provider target_language
          seg = translateSegmentAux provider target_language seg 0
          from rfl,
        translateSegmentAux_fst provider target_language seg 0,
        exceptMap_translateRow_str provider target_language seg hs])
  refine ⟨evs, haux, List.length_map _ _, ?_⟩
  rw [List.map_map]
  have hid : (TRec.row ∘ fun r =>
      (⟨r, providedOrSentinel provider target_language r⟩ : TRec)) =
      id := by
    funext r
    rfl
  rw [hid, List.map_id]

/-- Witness for claim C6 at a concrete input: the three-row demo
segment. -/
theorem claim_C6_witness :
    (∀ r ∈ demoDf, ∃ s, r.text = PyText.str s) ∧
    ∃ evs,
      translate_dataframe_segment demoProvider "de" demoDf =
        Except.ok (demoDf.map (fun r =>
          (⟨r, providedOrSentinel demoProvider "de" r⟩ : TRec)),
          evs) ∧
      (demoDf.map (fun r =>
        (⟨r, providedOrSentinel demoProvider "de" r⟩ :
          TRec))).length = demoDf.length ∧
      (demoDf.map (fun r =>
        (⟨r, providedOrSentinel demoProvider "de" r⟩ :
          TRec))).map TRec.row = demoDf :=
  ⟨by intro r hr; fin_cases hr <;> exact ⟨_, rfl⟩,
    claim_C6 demoProvider "de" demoDf
      (by intro r hr; fin_cases hr <;> exact ⟨_, rfl⟩)⟩

/-- Claim C7: every run that returns passes all fields other than the
appended text_translated through unchanged: the i-th output row carries
the i-th input record itself — same text value and same opaque columns
— with only the translated text added. -/
theorem claim_C7 (provider : Provider) (df : List Rec)
    (num_threads : Int) (parent_dir target_language : String)
    (rows : List TRec) (effs : List Effect) (hn : 1 ≤ num_threads)
    (h : translate_dataframe provider df num_threads parent_dir
      target_language = Except.ok (rows, effs)) :
    ∀ (i : Nat) (r : Rec) (tr : TRec), df[i]? = some r →
      rows[i]? = some tr →
      tr.row.text = r.text ∧ tr.row.fields = r.fields := by
  have hrow := translate_dataframe_rows provider df hn parent_dir
    target_language
  rw [h] at hrow
  simp only [Except.map] at hrow
  have hok : exceptMap (translateRow provider target_language) df =
      Except.ok rows := hrow.symm
  have hmap := exceptMap_translateRow_row provider target_language hok
  intro i r tr hdf hrows
  have hi : Option.map TRec.row rows[i]? = df[i]? := by
    rw [← hmap, List.getElem?_map]
  rw [hrows, hdf, Option.map_some'] at hi
  injection hi with h2
  rw [h2]
  exact ⟨rfl, rfl⟩

/-- Witness for claim C7 at a concrete input: the three-row demo run on
two threads. -/
theorem claim_C7_witness :
    (1 : Int) ≤ 2 ∧
    translate_dataframe demoProvider demoDf 2 "out" "de" =
      Except.ok (demoRows,
        [Effect.makedirs "out/dfs_translated",
         Effect.makedirs "out/dfs_translated/sub_dfs_translated_1",
         Effect.makedirs "out/dfs_translated/sub_dfs_translated_2",
         Effect.writeCsv "out/df_translated.csv" demoRows]) ∧
    ∀ (i : Nat) (r : Rec) (tr : TRec), demoDf[i]? = some r →
      demoRows[i]? = some tr →
      tr.row.text = r.text ∧ tr.row.fields = r.fields :=
  ⟨by decide, rfl,
    claim_C7 demoProvider demoDf 2 "out" "de" demoRows
      [Effect.makedirs "out/dfs_translated",
       Effect.makedirs "out/dfs_translated/sub_dfs_translated_1",
       Effect.makedirs "out/dfs_translated/sub_dfs_translated_2",
       Effect.writeCsv "out/df_translated.csv" demoRows]
      (by decide) rfl⟩

/-- Claim C8 is false on the code: in a concrete successful run the
coordinator itself performs the persistence — its own effect trace ends
with writing the merged rows to parent_dir/df_translated.csv — rather
than leaving persistence to its caller. -/
theorem claim_C8_counterexample :
    translate_dataframe demoProvider demoDf 1 "out" "de" =
      Except.ok (demoRows,
        [Effect.makedirs "out/dfs_translated",
         Effect.makedirs "out/dfs_translated/sub_dfs_translated_1",
         Effect.writeCsv "out/df_translated.csv" demoRows]) ∧
    Effect.writeCsv "out/df_translated.csv" demoRows ∈
      [Effect.makedirs "out/dfs_translated",
       Effect.makedirs "out/dfs_translated/sub_dfs_translated_1",
       Effect.writeCsv "out/df_translated.csv" demoRows] :=
  ⟨rfl, by decide⟩

/-- Claim C8 amended: the coordinator returns the merged sequence to
its caller and additionally persists it itself: the final effect of
every successful run is writing the returned rows to
parent_dir/df_translated.csv. -/
theorem claim_C8_amended (provider : Provider) (df : List Rec)
    (num_threads : Int) (parent_dir target_language : String)
    (rows : List TRec) (effs : List Effect)
    (h : translate_dataframe provider df num_threads parent_dir
      target_language = Except.ok (rows, effs)) :
    effs.getLast? = some (Effect.writeCsv
      (parent_dir ++ "/df_translated.csv") rows) := by
  by_cases h0 : num_threads = 0
  · rw [h0] at h
    exact absurd h (by simp [translate_dataframe])
  by_cases hneg : num_threads < 0
  · unfold translate_dataframe at h
    rw [if_neg h0, if_pos hneg] at h
    exact absurd h (by simp)
  simp only [translate_dataframe, if_neg h0, if_neg hneg] at h
  cases hc : exceptMap
      (fun c => (translate_dataframe_segment provider target_language
        c).map Prod.fst)
      (makeChunks df num_threads.toNat) with
  | error e =>
    simp only [hc] at h
    exact absurd h (by simp)
  | ok segs =>
    simp only [hc, Except.ok.injEq, Prod.mk.injEq] at h
    obtain ⟨hrows, heffs⟩ := h
    rw [← heffs, List.getLast?_concat, hrows]

/-- Witness for claim C8 amended at a concrete input: the single-thread
demo run. -/
theorem claim_C8_witness :
    translate_dataframe demoProvider demoDf 1 "out" "de" =
      Except.ok (demoRows,
        [Effect.makedirs "out/dfs_translated",
         Effect.makedirs "out/dfs_translated/sub_dfs_translated_1",
         Effect.writeCsv "out/df_translated.csv" demoRows]) ∧
    ([Effect.makedirs "out/dfs_translated",
      Effect.makedirs "out/dfs_translated/sub_dfs_translated_1",
      Effect.writeCsv "out/df_translated.csv"
        demoRows] : List Effect).getLast? =
      some (Effect.writeCsv ("out" ++ "/df_translated.csv") demoRows) :=
  ⟨rfl,
    claim_C8_amended demoProvider demoDf 1 "out" "de" demoRows
      [Effect.makedirs "out/dfs_translated",
       Effect.makedirs "out/dfs_translated/sub_dfs_translated_1",
       Effect.writeCsv "out/df_translated.csv" demoRows] rfl⟩

/-- Claim C9: with a deterministic provider, the partition count never
alters the translation results: for every num_threads >= 1 the run
produces exactly the rows of the sequential num_threads = 1 run on the
same dataset (and fails exactly when it fails). -/
theorem claim_C9 (provider : Provider) (df : List Rec)
    (num_threads : Int) (hn : 1 ≤ num_threads)
    (parent_dir parent_dir2 target_language : String) :
    (translate_dataframe provider df num_threads parent_dir
        target_language).map Prod.fst =
      (translate_dataframe provider df 1 parent_dir2
        target_language).map Prod.fst := by
  rw [translate_dataframe_rows provider df hn parent_dir
      target_language,
    translate_dataframe_rows provider df (by omega) parent_dir2
      target_language]

/-- Witness for claim C9 at a concrete input: four threads versus one
on the three-row demo dataframe (more threads than rows). -/
theorem claim_C9_witness :
    (1 : Int) ≤ 4 ∧
    (translate_dataframe demoProvider demoDf 4 "outA"
        "de").map Prod.fst =
      (translate_dataframe demoProvider demoDf 1 "outB"
        "de").map Prod.fst :=
  ⟨by decide,
    claim_C9 demoProvider demoDf 4 (by decide) "outA" "outB" "de"⟩

/-- Claim C10: translate_text survives a failed provider call exactly
when the text value supports slicing: with a failing provider a string
text yields the sentinel, while a non-string text (e.g. a missing value
loaded as a float NaN) makes the failure handler expression text[:30]
itself raise, so a TypeError escapes translate_text instead of the
sentinel being returned. -/
theorem claim_C10 (provider : Provider) (target_language : String)
    (t : PyText)
    (hfail : provider t target_language = Except.error ()) :
    (translate_text provider t target_language =
        Except.ok "no translation" ↔ ∃ s, t = PyText.str s) ∧
    (translate_text provider t target_language =
        Except.error PyError.typeError ↔ t = PyText.nanFloat) := by
  unfold translate_text
  rw [hfail]
  cases t <;> simp

/-- Witness for claim C10 at a concrete input: a row whose text is a
float NaN and whose provider call fails lets the TypeError escape. -/
theorem claim_C10_witness :
    failingProvider PyText.nanFloat "de" = Except.error () ∧
    ((translate_text failingProvider PyText.nanFloat "de" =
        Except.ok "no translation" ↔
      ∃ s, PyText.nanFloat = PyText.str s) ∧
    (translate_text failingProvider PyText.nanFloat "de" =
        Except.error PyError.typeError ↔
      PyText.nanFloat = PyText.nanFloat)) :=
  ⟨rfl, claim_C10 failingProvider "de" PyText.nanFloat rfl⟩
